import Mathlib

/-!
Shallow embedding of the holochain-rust core pieces covered by the claims:

* `core_types/src/dna/mod.rs` — the `Dna` structure, its lookup operations,
  its canonical JSON serialization, `multihash`, `PartialEq`, and the serde
  parsing defaults;
* `core/src/nucleus/ribosome/callback/validation_package.rs` —
  `get_validation_package_definition`;
* `core/src/nucleus/ribosome/api/update_entry.rs` — `invoke_update_entry`.

Machine bytes are `Nat` below 256, maps (`BTreeMap`) are association lists in
ascending key order, fallible Rust functions return `Except`, and Rust panics
(`assert!`, `.expect`) are modelled by an outer `Option` (`none` = panic).
Code of the repository that is not part of the provided sources (zome
definitions, entry types, errors, the ribosome context) is modelled from the
specification; each such definition is marked `Modelled from the spec`.
-/

/-! ## JSON values (serde_json `Value`)

Object fields are kept in serialization order; `serde_json`'s `Value` keeps
object keys in a `BTreeMap`, so objects originating from parsing are in
ascending key order. Number literals are kept verbatim as strings (no claim
performs numeric arithmetic on JSON numbers). -/

inductive Json where
  | null
  | bool (b : Bool)
  | num (lit : String)
  | str (s : String)
  | arr (elems : List Json)
  | obj (fields : List (String × Json))

/-- serde_json escaping of a single character inside a JSON string. -/
def escapeJsonChar (c : Char) : String :=
  if c = '"' then ("\\\"")
  else if c = '\\' then ("\\\\")
  else if c = Char.ofNat 8 then ("\\b")
  else if c = Char.ofNat 9 then ("\\t")
  else if c = Char.ofNat 10 then ("\\n")
  else if c = Char.ofNat 12 then ("\\f")
  else if c = Char.ofNat 13 then ("\\r")
  else if c.toNat < 32 then
    let hexDigit := fun (n : Nat) =>
      if n < 10 then Char.ofNat (48 + n) else Char.ofNat (87 + n)
    "\\u00" ++ String.mk [hexDigit (c.toNat / 16), hexDigit (c.toNat % 16)]
  else String.mk [c]

/-- serde_json rendering of a JSON string literal (with surrounding quotes). -/
def escapeJsonString (s : String) : String :=
  "\"" ++ String.join (s.toList.map escapeJsonChar) ++ "\""

mutual

/-- Compact serialization of a JSON value, as `serde_json::to_string`
produces it: no insignificant whitespace. -/
def jsonToString : Json → String
  | .null => "null"
  | .bool b => if b then ("true") else ("false")
  | .num lit => lit
  | .str s => escapeJsonString s
  | .arr elems => "[" ++ jsonElemsToString elems ++ "]"
  | .obj fields => "\x7b" ++ jsonFieldsToString fields ++ "\x7d"

/-- Comma-separated serialization of JSON array elements. -/
def jsonElemsToString : List Json → String
  | [] => ""
  | [j] => jsonToString j
  | j :: rest => jsonToString j ++ "," ++ jsonElemsToString rest

/-- Comma-separated serialization of JSON object fields. -/
def jsonFieldsToString : List (String × Json) → String
  | [] => ""
  | [(k, v)] => escapeJsonString k ++ ":" ++ jsonToString v
  | (k, v) :: rest =>
      escapeJsonString k ++ ":" ++ jsonToString v ++ "," ++ jsonFieldsToString rest

end

/-- Model of `JsonString::is_null` on a JSON value. -/
def Json.is_null : Json → Bool
  | .null => true
  | _ => false

/-- Lookup of an object field by key (first occurrence). -/
def jsonLookup (fields : List (String × Json)) (key : String) : Option Json :=
  (fields.find? (fun p => p.1 == key)).map (fun p => p.2)

/-- UTF-8 bytes of a string, as `Nat`s below 256. -/
def strBytes (s : String) : List Nat :=
  s.toUTF8.toList.map (fun b => b.toNat)

/-! ## SHA-256 (FIPS 180-4), as computed by the `multihash`/`sha2` crates -/

/-- Truncation to a 32-bit machine word. -/
def w32 (n : Nat) : Nat := n % 4294967296

/-- 32-bit right rotation (input assumed below 2^32). -/
def rotr32 (x n : Nat) : Nat := w32 (x >>> n ||| x <<< (32 - n))

/-- SHA-256 Σ₀. -/
def bsig0 (x : Nat) : Nat := rotr32 x 2 ^^^ rotr32 x 13 ^^^ rotr32 x 22

/-- SHA-256 Σ₁. -/
def bsig1 (x : Nat) : Nat := rotr32 x 6 ^^^ rotr32 x 11 ^^^ rotr32 x 25

/-- SHA-256 σ₀. -/
def ssig0 (x : Nat) : Nat := rotr32 x 7 ^^^ rotr32 x 18 ^^^ (x >>> 3)

/-- SHA-256 σ₁. -/
def ssig1 (x : Nat) : Nat := rotr32 x 17 ^^^ rotr32 x 19 ^^^ (x >>> 10)

/-- SHA-256 Ch. -/
def sha256Ch (x y z : Nat) : Nat := (x &&& y) ^^^ ((x ^^^ 4294967295) &&& z)

/-- SHA-256 Maj. -/
def sha256Maj (x y z : Nat) : Nat := (x &&& y) ^^^ (x &&& z) ^^^ (y &&& z)

/-- Big-endian 32-bit word from four bytes. -/
def beWord (b0 b1 b2 b3 : Nat) : Nat := ((b0 * 256 + b1) * 256 + b2) * 256 + b3

/-- Group a byte list into big-endian 32-bit words (complete groups of 4). -/
def bytesToWords : List Nat → List Nat
  | b0 :: b1 :: b2 :: b3 :: rest => beWord b0 b1 b2 b3 :: bytesToWords rest
  | _ => []

/-- Big-endian bytes of a 32-bit word. -/
def wordToBytes (w : Nat) : List Nat :=
  [w / 16777216 % 256, w / 65536 % 256, w / 256 % 256, w % 256]

/-- Big-endian bytes of `n`, `len` bytes wide (truncating above). -/
def natToBytesBe : Nat → Nat → List Nat
  | 0, _ => []
  | len + 1, n => natToBytesBe len (n / 256) ++ [n % 256]

/-- SHA-256 padding: append `0x80`, zeros, and the 64-bit big-endian bit
length, reaching a multiple of 64 bytes. -/
def sha256Pad (msg : List Nat) : List Nat :=
  msg ++ 128 :: (List.replicate ((119 - msg.length % 64) % 64) 0
    ++ natToBytesBe 8 (8 * msg.length))

/-- Split a byte list into 64-byte chunks. -/
def chunk64 (l : List Nat) : List (List Nat) :=
  if h : l.length = 0 then [] else l.take 64 :: chunk64 (l.drop 64)
termination_by l.length
decreasing_by simp only [List.length_drop]; omega

/-- Extend the 16 message-schedule words by `count` further words. -/
def sha256Extend (ws : List Nat) : Nat → List Nat
  | 0 => ws
  | count + 1 =>
      let i := ws.length
      sha256Extend
        (ws ++ [w32 (ssig1 (ws.getD (i - 2) 0) + ws.getD (i - 7) 0
          + ssig0 (ws.getD (i - 15) 0) + ws.getD (i - 16) 0)]) count

/-- The eight SHA-256 working variables. -/
structure Sha256State where
  a : Nat
  b : Nat
  c : Nat
  d : Nat
  e : Nat
  f : Nat
  g : Nat
  h : Nat

/-- SHA-256 initial hash value. -/
def sha256Init : Sha256State :=
  ⟨1779033703, 3144134277, 1013904242, 2773480762,
   1359893119, 2600822924, 528734635, 1541459225⟩

/-- The 64 SHA-256 round constants. -/
def sha256K : List Nat :=
  [1116352408, 1899447441, 3049323471, 3921009573,
   961987163, 1508970993, 2453635748, 2870763221,
   3624381080, 310598401, 607225278, 1426881987,
   1925078388, 2162078206, 2614888103, 3248222580,
   3835390401, 4022224774, 264347078, 604807628,
   770255983, 1249150122, 1555081692, 1996064986,
   2554220882, 2821834349, 2952996808, 3210313671,
   3336571891, 3584528711, 113926993, 338241895,
   666307205, 773529912, 1294757372, 1396182291,
   1695183700, 1986661051, 2177026350, 2456956037,
   2730485921, 2820302411, 3259730800, 3345764771,
   3516065817, 3600352804, 4094571909, 275423344,
   430227734, 506948616, 659060556, 883997877,
   958139571, 1322822218, 1537002063, 1747873779,
   1955562222, 2024104815, 2227730452, 2361852424,
   2428436474, 2756734187, 3204031479, 3329325298]

/-- One SHA-256 compression round. -/
def sha256Round (st : Sha256State) (k w : Nat) : Sha256State :=
  let t1 := w32 (st.h + bsig1 st.e + sha256Ch st.e st.f st.g + k + w)
  let t2 := w32 (bsig0 st.a + sha256Maj st.a st.b st.c)
  ⟨w32 (t1 + t2), st.a, st.b, st.c, w32 (st.d + t1), st.e, st.f, st.g⟩

/-- Run the compression rounds over the round constants and schedule. -/
def sha256Compress (st : Sha256State) : List Nat → List Nat → Sha256State
  | k :: ks, w :: ws => sha256Compress (sha256Round st k w) ks ws
  | _, _ => st

/-- Process one 64-byte block. -/
def sha256Block (st : Sha256State) (block : List Nat) : Sha256State :=
  let ws := sha256Extend (bytesToWords block) 48
  let r := sha256Compress st sha256K ws
  ⟨w32 (st.a + r.a), w32 (st.b + r.b), w32 (st.c + r.c), w32 (st.d + r.d),
   w32 (st.e + r.e), w32 (st.f + r.f), w32 (st.g + r.g), w32 (st.h + r.h)⟩

/-- SHA-256 digest (32 bytes) of a byte message. -/
def sha256 (msg : List Nat) : List Nat :=
  let fin := (chunk64 (sha256Pad msg)).foldl sha256Block sha256Init
  wordToBytes fin.a ++ wordToBytes fin.b ++ wordToBytes fin.c ++ wordToBytes fin.d
    ++ wordToBytes fin.e ++ wordToBytes fin.f ++ wordToBytes fin.g ++ wordToBytes fin.h

theorem sha256_length (msg : List Nat) : (sha256 msg).length = 32 := by
  simp [sha256, wordToBytes]

/-! ## multihash

`multihash::encode(Hash::SHA2256, data)` produces the multihash framing:
the algorithm code byte `0x12`, the digest length byte `0x20`, then the
32-byte SHA-256 digest. The SHA2-256 algorithm is supported, so the crate's
`Result` is always `Ok` on this code path. -/

inductive MultihashAlg where
  | SHA2256

/-- Model of `multihash::encode` for the one algorithm the repository uses. -/
def multihashEncode : MultihashAlg → List Nat → List Nat
  | .SHA2256, data => 18 :: 32 :: sha256 data

theorem multihashEncode_length (data : List Nat) :
    (multihashEncode .SHA2256 data).length = 34 := by
  simp [multihashEncode, sha256_length]

/-! ## Base64 (standard alphabet, `=` padding), used by `DnaWasm` code fields -/

/-- The standard base64 alphabet. -/
def base64Chars : List Char :=
  ("ABCDEFGHIJKLMNOPQRSTUVWXYZabcdefghijklmnopqrstuvwxyz0123456789+/").toList

/-- Index of a character in the base64 alphabet. -/
def base64CharVal (c : Char) : Option Nat :=
  if base64Chars.contains c then some (base64Chars.indexOf c) else none

/-- Base64 encoding of a byte list. -/
def base64Encode : List Nat → String
  | [] => ""
  | [b0] =>
      String.mk [base64Chars.getD (b0 / 4) 'A',
        base64Chars.getD (b0 % 4 * 16) 'A'] ++ "=="
  | [b0, b1] =>
      String.mk [base64Chars.getD (b0 / 4) 'A',
        base64Chars.getD (b0 % 4 * 16 + b1 / 16) 'A',
        base64Chars.getD (b1 % 16 * 4) 'A'] ++ "="
  | b0 :: b1 :: b2 :: rest =>
      String.mk [base64Chars.getD (b0 / 4) 'A',
        base64Chars.getD (b0 % 4 * 16 + b1 / 16) 'A',
        base64Chars.getD (b1 % 16 * 4 + b2 / 64) 'A',
        base64Chars.getD (b2 % 64) 'A'] ++ base64Encode rest

/-- Base64 decoding of a character list (groups of four, `=` padding). -/
def base64DecodeChars : List Char → Option (List Nat)
  | [] => some []
  | [c0, c1, '=', '='] => do
      let v0 ← base64CharVal c0
      let v1 ← base64CharVal c1
      some [v0 * 4 + v1 / 16]
  | [c0, c1, c2, '='] => do
      let v0 ← base64CharVal c0
      let v1 ← base64CharVal c1
      let v2 ← base64CharVal c2
      some [v0 * 4 + v1 / 16, v1 % 16 * 16 + v2 / 4]
  | c0 :: c1 :: c2 :: c3 :: rest => do
      let v0 ← base64CharVal c0
      let v1 ← base64CharVal c1
      let v2 ← base64CharVal c2
      let v3 ← base64CharVal c3
      let tail ← base64DecodeChars rest
      some ((v0 * 4 + v1 / 16) :: (v1 % 16 * 16 + v2 / 4) :: (v2 % 64 * 4 + v3) :: tail)
  | _ => none

/-- Base64 decoding of a string. -/
def base64Decode (s : String) : Option (List Nat) :=
  base64DecodeChars s.toList

/-! ## The DNA data model (`core_types/src/dna`)

`Dna` itself is translated from `core_types/src/dna/mod.rs`. The `zome`
submodule and `entry_type` module are not among the provided sources, so
`Zome`, `EntryTypeDef`, `Capability` and `EntryType` are modelled from the
specification (sections 3 and 6). -/

/-- An address: a stable content hash, an opaque string in the public
surface. -/
def Address := String
deriving DecidableEq

/-- Modelled from the spec: an entry type is either an application type
carrying its name (`AppEntryType` is a string newtype) or one of the system
tags `Dna`, `AgentId`, `Deletion`, `LinkAdd`, `LinkRemove`. -/
inductive EntryType where
  | App (type_name : String)
  | Dna
  | AgentId
  | Deletion
  | LinkAdd
  | LinkRemove
deriving DecidableEq

/-- Modelled from the spec: the tagged variant strings naming system entry
types in DNA JSON (`"LinkAdd"`, `"Deletion"`, `"AgentId"`, `"Dna"`, plus the
`LinkRemove` system variant). -/
def sysEntryTypeNames : List String :=
  [("Dna"), ("AgentId"), ("Deletion"), ("LinkAdd"), ("LinkRemove")]

/-- Modelled from the spec: `EntryType::has_valid_app_name` — a valid app
entry type name is a bare name that is not one of the system tags. -/
def EntryType.has_valid_app_name (type_name : String) : Bool :=
  !(sysEntryTypeNames.contains type_name)

/-- Modelled from the spec: parsing a DNA JSON entry-type key — a system tag
yields the system variant, any other bare name an app entry type. -/
def EntryType.from_str (s : String) : EntryType :=
  if s == "Dna" then .Dna
  else if s == "AgentId" then .AgentId
  else if s == "Deletion" then .Deletion
  else if s == "LinkAdd" then .LinkAdd
  else if s == "LinkRemove" then .LinkRemove
  else .App s

/-- Modelled from the spec: the serialized form of an entry type, the key
under which it appears in a DNA JSON `entry_types` object. -/
def EntryType.to_str : EntryType → String
  | .App type_name => type_name
  | .Dna => "Dna"
  | .AgentId => "AgentId"
  | .Deletion => "Deletion"
  | .LinkAdd => "LinkAdd"
  | .LinkRemove => "LinkRemove"

/-- Modelled from the spec: the `BTreeMap` key order on entry types (app
types first, ordered by name; system variants in declaration order). -/
def EntryType.cmp (x y : EntryType) : Ordering :=
  let rank : EntryType → Nat
    | .App _ => 0
    | .Dna => 1
    | .AgentId => 2
    | .Deletion => 3
    | .LinkAdd => 4
    | .LinkRemove => 5
  match x, y with
  | .App s, .App t => compare s t
  | _, _ => compare (rank x) (rank y)

/-- Modelled from the spec: a declared link from an entry type
(`links_to: [⟨target_type, tag⟩]`). -/
structure LinksTo where
  target_type : String
  tag : String
deriving DecidableEq

/-- Modelled from the spec: a declared link onto an entry type
(`linked_from: [⟨base_type, tag⟩]`). -/
structure LinkedFrom where
  base_type : String
  tag : String
deriving DecidableEq

/-- Modelled from the spec: the sharing policy of an entry type. -/
inductive Sharing where
  | Public
  | Private
  | Encrypted
deriving DecidableEq

/-- Modelled from the spec: the definition of an app entry type
(`EntryTypeDef ⟨description, sharing, links_to, linked_from⟩`). -/
structure EntryTypeDef where
  description : String
  sharing : Sharing
  links_to : List LinksTo
  linked_from : List LinkedFrom
deriving DecidableEq

/-- Modelled from the spec: a zome function declaration
(`⟨name, inputs, outputs⟩`). -/
structure FnDeclaration where
  name : String
  inputs : List String
  outputs : List String
deriving DecidableEq

/-- Modelled from the spec: the membrane/type of a capability. -/
inductive Membrane where
  | Public
  | Agent
  | ApiKey
  | Zome
deriving DecidableEq

/-- Modelled from the spec: a zome capability
(`Capability ⟨membrane, fn_declarations⟩`). -/
structure Capability where
  membrane : Membrane
  fn_declarations : List FnDeclaration
deriving DecidableEq

/-- Modelled from the spec: a zome's error-handling configuration. -/
inductive ErrorHandling where
  | ThrowErrors
  | ReturnErrorCode
deriving DecidableEq

/-- Modelled from the spec: the `config` object of a zome. -/
structure ZomeConfig where
  error_handling : ErrorHandling
deriving DecidableEq

/-- Modelled from the spec: a zome's WASM bytecode (`DnaWasm ⟨code⟩`,
serialized as base64). -/
structure DnaWasm where
  code : List Nat
deriving DecidableEq

/-- Modelled from the spec: a zome. The `entry_types` and `capabilities`
`BTreeMap`s are association lists in ascending key order. -/
structure Zome where
  description : String
  config : ZomeConfig
  entry_types : List (EntryType × EntryTypeDef)
  capabilities : List (String × Capability)
  code : DnaWasm
deriving DecidableEq

/-- The top-level holochain DNA object (`core_types/src/dna/mod.rs`). The
`zomes` `BTreeMap` is an association list in ascending key order. -/
structure Dna where
  name : String
  description : String
  version : String
  uuid : String
  dna_spec_version : String
  properties : Json
  zomes : List (String × Zome)

/-! ## DNA errors and lookup operations (`core_types/src/dna/mod.rs`) -/

/-- Modelled from the spec: typed DNA errors (`ZomeNotFound`,
`CapabilityNotFound`, `TraitNotFound`), each carrying a message. -/
inductive DnaError where
  | ZomeNotFound (msg : String)
  | CapabilityNotFound (msg : String)
  | TraitNotFound (msg : String)
deriving DecidableEq

/-- Translation of `Dna::get_zome`: `self.zomes.get(zome_name)` — a `BTreeMap` lookup. -/
def Dna.get_zome (dna : Dna) (zome_name : String) : Option Zome :=
  (dna.zomes.find? (fun p => p.1 == zome_name)).map (fun p => p.2)

/-- Translation of `Dna::get_capability`: `zome.capabilities.get(capability_name)`. -/
def Dna.get_capability (_dna : Dna) (zome : Zome) (capability_name : String) :
    Option Capability :=
  (zome.capabilities.find? (fun p => p.1 == capability_name)).map (fun p => p.2)

/-- Translation of `Dna::get_wasm_from_zome_name`: find the zome and return its code. -/
def Dna.get_wasm_from_zome_name (dna : Dna) (zome_name : String) : Option DnaWasm :=
  (dna.get_zome zome_name).map (fun zome => zome.code)

/-- Translation of `Dna::get_capability_with_zome_name`: `ZomeNotFound` when the zome is
missing, `CapabilityNotFound` when the capability is missing in the zome,
the capability otherwise. -/
def Dna.get_capability_with_zome_name (dna : Dna) (zome_name cap_name : String) :
    Except DnaError Capability :=
  match dna.get_zome zome_name with
  | none => .error (.ZomeNotFound ("Zome " ++ zome_name ++ " not found"))
  | some zome =>
    match dna.get_capability zome cap_name with
    | none => .error (.CapabilityNotFound
        ("Capability " ++ cap_name ++ " not found in Zome " ++ zome_name))
    | some cap => .ok cap

/-- The zome browse of `Dna::get_zome_name_for_app_entry_type`: the nested
`for` loops returning the current zome name on the first `entry_types` key
equal to `EntryType::App(entry_type_name)`. -/
def zomeNameBrowse (entry_type_name : String) : List (String × Zome) → Option String
  | [] => none
  | (zome_name, zome) :: rest =>
    if zome.entry_types.any (fun p => p.1 == EntryType.App entry_type_name)
    then some zome_name
    else zomeNameBrowse entry_type_name rest

/-- Translation of `Dna::get_zome_name_for_app_entry_type`. The leading
`assert!(EntryType::has_valid_app_name(..))` is modelled by the outer
`Option`: `none` is the panic of a failed assertion. -/
def Dna.get_zome_name_for_app_entry_type (dna : Dna) (app_entry_type : String) :
    Option (Option String) :=
  if EntryType.has_valid_app_name app_entry_type
  then some (zomeNameBrowse app_entry_type dna.zomes)
  else none

/-- The zome browse of `Dna::get_entry_type_def`: the nested `for` loops
returning the definition stored at the first `entry_types` key equal to
`EntryType::App(entry_type_name)`. -/
def entryTypeDefBrowse (entry_type_name : String) :
    List (String × Zome) → Option EntryTypeDef
  | [] => none
  | (_, zome) :: rest =>
    match zome.entry_types.find? (fun p => p.1 == EntryType.App entry_type_name) with
    | some p => some p.2
    | none => entryTypeDefBrowse entry_type_name rest

/-- Translation of `Dna::get_entry_type_def`. The leading assertion is modelled by the
outer `Option` as above. -/
def Dna.get_entry_type_def (dna : Dna) (entry_type_name : String) :
    Option (Option EntryTypeDef) :=
  if EntryType.has_valid_app_name entry_type_name
  then some (entryTypeDefBrowse entry_type_name dna.zomes)
  else none

/-! ## DNA canonical JSON serialization

`JsonString::from(dna)` is `serde_json::to_string` of the `Dna` struct:
fields in declaration order, `BTreeMap`s in ascending key order, no
insignificant whitespace. The `Zome` side of the serialization is modelled
from the spec (section 6). -/

/-- Modelled from the spec: serialization of a sharing policy. -/
def Sharing.to_json : Sharing → Json
  | .Public => .str ("public")
  | .Private => .str ("private")
  | .Encrypted => .str ("encrypted")

/-- Modelled from the spec: serialization of a `links_to` declaration. -/
def LinksTo.to_json (lt : LinksTo) : Json :=
  .obj [(("target_type"), .str lt.target_type), (("tag"), .str lt.tag)]

/-- Modelled from the spec: serialization of a `linked_from` declaration. -/
def LinkedFrom.to_json (lf : LinkedFrom) : Json :=
  .obj [(("base_type"), .str lf.base_type), (("tag"), .str lf.tag)]

/-- Modelled from the spec: serialization of an entry-type definition. -/
def EntryTypeDef.to_json (def0 : EntryTypeDef) : Json :=
  .obj [(("description"), .str def0.description),
        (("sharing"), def0.sharing.to_json),
        (("links_to"), .arr (def0.links_to.map LinksTo.to_json)),
        (("linked_from"), .arr (def0.linked_from.map LinkedFrom.to_json))]

/-- Modelled from the spec: serialization of a capability membrane. -/
def Membrane.to_json : Membrane → Json
  | .Public => .str ("public")
  | .Agent => .str ("agent")
  | .ApiKey => .str ("api-key")
  | .Zome => .str ("zome")

/-- Modelled from the spec: serialization of a function declaration. -/
def FnDeclaration.to_json (fd : FnDeclaration) : Json :=
  .obj [(("name"), .str fd.name),
        (("inputs"), .arr (fd.inputs.map Json.str)),
        (("outputs"), .arr (fd.outputs.map Json.str))]

/-- Modelled from the spec: serialization of a capability. -/
def Capability.to_json (cap : Capability) : Json :=
  .obj [(("capability"), .obj [(("membrane"), cap.membrane.to_json)]),
        (("fn_declarations"), .arr (cap.fn_declarations.map FnDeclaration.to_json))]

/-- Modelled from the spec: serialization of an error-handling choice. -/
def ErrorHandling.to_json : ErrorHandling → Json
  | .ThrowErrors => .str ("throw-errors")
  | .ReturnErrorCode => .str ("return-error-code")

/-- Modelled from the spec: serialization of a zome config. -/
def ZomeConfig.to_json (cfg : ZomeConfig) : Json :=
  .obj [(("error_handling"), cfg.error_handling.to_json)]

/-- Modelled from the spec: serialization of WASM bytecode as base64. -/
def DnaWasm.to_json (wasm : DnaWasm) : Json :=
  .obj [(("code"), .str (base64Encode wasm.code))]

/-- Modelled from the spec: serialization of a zome. -/
def Zome.to_json (zome : Zome) : Json :=
  .obj [(("description"), .str zome.description),
        (("config"), zome.config.to_json),
        (("entry_types"),
          .obj (zome.entry_types.map (fun p => (p.1.to_str, p.2.to_json)))),
        (("capabilities"),
          .obj (zome.capabilities.map (fun p => (p.1, p.2.to_json)))),
        (("code"), zome.code.to_json)]

/-- Serialization of a DNA, fields in the declaration order of the struct in
`core_types/src/dna/mod.rs`. -/
def Dna.to_json (dna : Dna) : Json :=
  .obj [(("name"), .str dna.name),
        (("description"), .str dna.description),
        (("version"), .str dna.version),
        (("uuid"), .str dna.uuid),
        (("dna_spec_version"), .str dna.dna_spec_version),
        (("properties"), dna.properties),
        (("zomes"), .obj (dna.zomes.map (fun p => (p.1, p.2.to_json))))]

/-- Model of `String::from(JsonString::from(dna))` — the canonical JSON text of a
DNA, the serialization that defines DNA identity. -/
def Dna.json_string (dna : Dna) : String :=
  jsonToString dna.to_json

/-- Modelled from the spec: the error union kinds of `HolochainError`
(section 7) that the embedded code paths use. -/
inductive HolochainError where
  | ErrorGeneric (msg : String)
  | NotImplemented
  | DnaMissing
  | Dna (e : DnaError)
  | SerializationError (msg : String)
  | InvalidOperationOnSysEntry
  | ValidationFailed (reason : String)
  | Timeout
deriving DecidableEq

/-- Translation of `Dna::multihash`: the SHA2-256 multihash of the canonical JSON text.
`multihash::encode` only errors on unsupported algorithms, so the result is
always `ok` here. -/
def Dna.multihash (dna : Dna) : Except HolochainError (List Nat) :=
  .ok (multihashEncode .SHA2256 (strBytes dna.json_string))

/-- Translation of `impl PartialEq for Dna`: equality of the canonical JSON texts. -/
def Dna.partial_eq (dna other : Dna) : Bool :=
  dna.json_string == other.json_string

/-! ## Parsing a DNA from JSON (serde deserialization semantics)

`Dna::try_from(JsonString)` is `serde_json::from_str` into the `Dna` struct.
The embedding parses from a JSON *value*: a field that is present must have
the right shape (a type mismatch is an error), a field that is absent takes
its serde default. The serde defaults of the `Dna` struct are taken from the
attributes in `core_types/src/dna/mod.rs`: `name`, `description`, `version`
and `dna_spec_version` carry plain `#[serde(default)]` (the empty string),
`uuid` carries `#[serde(default = "new_uuid")]` (a freshly generated v4
UUID, passed here as the `fresh_uuid` argument), `properties` carries
`#[serde(default = "empty_object")]`, and `zomes` carries a plain
`#[serde(default)]` (the empty map). -/

/-- Deserialize a JSON string value. -/
def parseJsonString : Json → Except String String
  | .str s => .ok s
  | _ => .error ("invalid type: expected a string")

/-- Deserialize an object field: the serde default when absent, the parsed
value when present, an error on a type mismatch. -/
def parseField (fields : List (String × Json)) (key : String)
    (p : Json → Except String α) (dflt : α) : Except String α :=
  match jsonLookup fields key with
  | none => .ok dflt
  | some v => p v

/-- Model of `BTreeMap` insertion into an association list in ascending key order,
replacing the value at an equal key. -/
def sortedInsert (cmp : κ → κ → Ordering) (key : κ) (v : α) :
    List (κ × α) → List (κ × α)
  | [] => [(key, v)]
  | (k2, v2) :: rest =>
    match cmp key k2 with
    | .lt => (key, v) :: (k2, v2) :: rest
    | .eq => (key, v) :: rest
    | .gt => (k2, v2) :: sortedInsert cmp key v rest

/-- Deserialize a JSON object into a `BTreeMap` association list, parsing
every key with `pk` and every value with `pv`. -/
def parseMap (cmp : κ → κ → Ordering) (pk : String → κ)
    (pv : Json → Except String α) : Json → Except String (List (κ × α))
  | .obj fields =>
      fields.foldlM
        (fun acc p => do
          let v ← pv p.2
          pure (sortedInsert cmp (pk p.1) v acc)) []
  | _ => .error ("invalid type: expected an object")

/-- Modelled from the spec: deserialization of a sharing policy. -/
def parseSharing : Json → Except String Sharing
  | .str s =>
      if s == "public" then .ok .Public
      else if s == "private" then .ok .Private
      else if s == "encrypted" then .ok .Encrypted
      else .error ("unknown sharing variant")
  | _ => .error ("invalid type: expected a string")

/-- Modelled from the spec: deserialization of a `links_to` declaration. -/
def parseLinksTo : Json → Except String LinksTo
  | .obj fields => do
      let target_type ← parseField fields ("target_type") parseJsonString ("")
      let tag ← parseField fields ("tag") parseJsonString ("")
      .ok ⟨target_type, tag⟩
  | _ => .error ("invalid type: expected an object")

/-- Modelled from the spec: deserialization of a `linked_from` declaration. -/
def parseLinkedFrom : Json → Except String LinkedFrom
  | .obj fields => do
      let base_type ← parseField fields ("base_type") parseJsonString ("")
      let tag ← parseField fields ("tag") parseJsonString ("")
      .ok ⟨base_type, tag⟩
  | _ => .error ("invalid type: expected an object")

/-- Deserialize a JSON array elementwise. -/
def parseArray (p : Json → Except String α) : Json → Except String (List α)
  | .arr elems => elems.mapM p
  | _ => .error ("invalid type: expected an array")

/-- Modelled from the spec: deserialization of an entry-type definition,
every field defaulted when absent. -/
def parseEntryTypeDef : Json → Except String EntryTypeDef
  | .obj fields => do
      let description ← parseField fields ("description") parseJsonString ("")
      let sharing ← parseField fields ("sharing") parseSharing .Public
      let links_to ← parseField fields ("links_to") (parseArray parseLinksTo) []
      let linked_from ← parseField fields ("linked_from") (parseArray parseLinkedFrom) []
      .ok ⟨description, sharing, links_to, linked_from⟩
  | _ => .error ("invalid type: expected an object")

/-- Modelled from the spec: deserialization of a capability membrane. -/
def parseMembrane : Json → Except String Membrane
  | .str s =>
      if s == "public" then .ok .Public
      else if s == "agent" then .ok .Agent
      else if s == "api-key" then .ok .ApiKey
      else if s == "zome" then .ok .Zome
      else .error ("unknown membrane variant")
  | _ => .error ("invalid type: expected a string")

/-- Modelled from the spec: deserialization of a function declaration. -/
def parseFnDeclaration : Json → Except String FnDeclaration
  | .obj fields => do
      let name ← parseField fields ("name") parseJsonString ("")
      let inputs ← parseField fields ("inputs") (parseArray parseJsonString) []
      let outputs ← parseField fields ("outputs") (parseArray parseJsonString) []
      .ok ⟨name, inputs, outputs⟩
  | _ => .error ("invalid type: expected an object")

/-- Modelled from the spec: deserialization of a capability. -/
def parseCapability : Json → Except String Capability
  | .obj fields => do
      let membrane ←
        match jsonLookup fields ("capability") with
        | none => .ok Membrane.Public
        | some (.obj capFields) => parseField capFields ("membrane") parseMembrane .Public
        | some _ => .error ("invalid type: expected an object")
      let fn_declarations ←
        parseField fields ("fn_declarations") (parseArray parseFnDeclaration) []
      .ok ⟨membrane, fn_declarations⟩
  | _ => .error ("invalid type: expected an object")

/-- Modelled from the spec: deserialization of an error-handling choice. -/
def parseErrorHandling : Json → Except String ErrorHandling
  | .str s =>
      if s == "throw-errors" then .ok .ThrowErrors
      else if s == "return-error-code" then .ok .ReturnErrorCode
      else .error ("unknown error_handling variant")
  | _ => .error ("invalid type: expected a string")

/-- Modelled from the spec: deserialization of a zome config, defaulting to
`throw-errors`. -/
def parseZomeConfig : Json → Except String ZomeConfig
  | .obj fields => do
      let error_handling ←
        parseField fields ("error_handling") parseErrorHandling .ThrowErrors
      .ok ⟨error_handling⟩
  | _ => .error ("invalid type: expected an object")

/-- Modelled from the spec: deserialization of WASM bytecode from its
base64 `code` field. -/
def parseDnaWasm : Json → Except String DnaWasm
  | .obj fields => do
      let code ←
        match jsonLookup fields ("code") with
        | none => .ok []
        | some (.str s) =>
          match base64Decode s with
          | some bytes => .ok bytes
          | none => .error ("invalid base64")
        | some _ => .error ("invalid type: expected a string")
      .ok ⟨code⟩
  | _ => .error ("invalid type: expected an object")

/-- Modelled from the spec: deserialization of a zome, every field defaulted
when absent. -/
def parseZome : Json → Except String Zome
  | .obj fields => do
      let description ← parseField fields ("description") parseJsonString ("")
      let config ← parseField fields ("config") parseZomeConfig ⟨.ThrowErrors⟩
      let entry_types ← parseField fields ("entry_types")
        (parseMap EntryType.cmp EntryType.from_str parseEntryTypeDef) []
      let capabilities ← parseField fields ("capabilities")
        (parseMap compare id parseCapability) []
      let code ← parseField fields ("code") parseDnaWasm ⟨[]⟩
      .ok ⟨description, config, entry_types, capabilities, code⟩
  | _ => .error ("invalid type: expected an object")

/-- Model of `Dna::try_from(JsonString)` — serde deserialization of the `Dna` struct.
`fresh_uuid` stands for the v4 UUID that `new_uuid()` would generate for an
absent `uuid` field. -/
def parseDna (fresh_uuid : String) : Json → Except String Dna
  | .obj fields =>
    match parseField fields ("name") parseJsonString ("") with
    | .error e => .error e
    | .ok name =>
    match parseField fields ("description") parseJsonString ("") with
    | .error e => .error e
    | .ok description =>
    match parseField fields ("version") parseJsonString ("") with
    | .error e => .error e
    | .ok version =>
    match parseField fields ("uuid") parseJsonString fresh_uuid with
    | .error e => .error e
    | .ok uuid =>
    match parseField fields ("dna_spec_version") parseJsonString ("") with
    | .error e => .error e
    | .ok dna_spec_version =>
    match parseField fields ("properties") (fun j => .ok j) (.obj []) with
    | .error e => .error e
    | .ok properties =>
    match parseField fields ("zomes") (parseMap compare id parseZome) [] with
    | .error e => .error e
    | .ok zomes =>
      .ok ⟨name, description, version, uuid, dna_spec_version, properties, zomes⟩
  | _ => .error ("invalid type: expected an object")

/-- Translation of `Dna::default()` and `Dna::new()`: the struct-level defaults, with
`dna_spec_version` `"2.0"` and a fresh v4 `uuid`. -/
def Dna.new (fresh_uuid : String) : Dna :=
  ⟨"", "", "", fresh_uuid, ("2.0"), .obj [], []⟩

/-! ## Entries (`core_types/src/entry`)

`DeletionEntry` is translated from `core_types/src/entry/deletion_entry.rs`;
the `Entry` variants are modelled from the specification (section 3). -/

/-- A deletion entry marking a prior entry deleted
(`core_types/src/entry/deletion_entry.rs`). -/
structure DeletionEntry where
  deleted_entry_address : Address
deriving DecidableEq

/-- Modelled from the spec: the tagged entry variants. -/
inductive Entry where
  | App (type_name : String) (value : String)
  | LinkAdd (base : Address) (target : Address) (tag : String)
  | LinkRemove (link_add_address : Address)
  | Deletion (deletion : DeletionEntry)
  | AgentId (key : String)
  | Dna (dna_hash : String)
deriving DecidableEq

/-- Modelled from the spec: `Entry::entry_type`. -/
def Entry.entry_type : Entry → EntryType
  | .App type_name _ => .App type_name
  | .LinkAdd .. => .LinkAdd
  | .LinkRemove _ => .LinkRemove
  | .Deletion _ => .Deletion
  | .AgentId _ => .AgentId
  | .Dna _ => .Dna

/-! ## Validation package definitions and the ribosome callback
(`core/src/nucleus/ribosome/callback/validation_package.rs`) -/

/-- Modelled from the spec: an application-declared validation package
definition. -/
inductive ValidationPackageDefinition where
  | Entry
  | ChainEntries
  | ChainHeaders
  | ChainFull
  | Custom (bytes : String)
deriving DecidableEq

/-- Modelled from the spec: serde serialization of a validation package
definition (externally tagged: unit variants as strings, `Custom` as a
one-field object). -/
def ValidationPackageDefinition.to_json : ValidationPackageDefinition → Json
  | .Entry => .str ("Entry")
  | .ChainEntries => .str ("ChainEntries")
  | .ChainHeaders => .str ("ChainHeaders")
  | .ChainFull => .str ("ChainFull")
  | .Custom bytes => .obj [(("Custom"), .str bytes)]

/-- Modelled from the spec: `ValidationPackageDefinition::try_from` — serde
deserialization from a JSON value. -/
def ValidationPackageDefinition.try_from (j : Json) :
    Except String ValidationPackageDefinition :=
  match j with
  | .str s =>
      if s == "Entry" then .ok .Entry
      else if s == "ChainEntries" then .ok .ChainEntries
      else if s == "ChainHeaders" then .ok .ChainHeaders
      else if s == "ChainFull" then .ok .ChainFull
      else .error ("unknown variant")
  | .obj [(tag, .str bytes)] =>
      if tag == "Custom" then .ok (.Custom bytes) else .error ("unknown variant")
  | _ => .error ("invalid type")

/-- Modelled from the spec: the result of a ribosome callback. -/
inductive CallbackResult where
  | Pass
  | Fail (reason : String)
  | NotImplemented
  | ValidationPackageDefinition (package : ValidationPackageDefinition)
deriving DecidableEq

/-- Modelled from the spec: a zome function call as handed to
`ribosome::run_dna` (zome name, capability name, function name, serialized
parameters). Each recorded `ZomeFnCall` is one WASM callback invocation. -/
structure ZomeFnCall where
  zome_name : String
  cap_name : String
  fn_name : String
  parameters : String
deriving DecidableEq

/-- Modelled from the spec: the direction of a link definition found in the
DNA. -/
inductive LinkDirection where
  | To
  | From
deriving DecidableEq

/-- Modelled from the spec: the location of a link definition in the DNA, as
returned by `links_utils::find_link_definition_in_dna`. -/
structure LinkDefinitionPath where
  zome_name : String
  entry_type_name : String
  tag : String
  direction : LinkDirection
deriving DecidableEq

/-- Modelled from the spec: `LinkValidationPackageArgs`, the serialized
argument of `__hdk_get_validation_package_for_link`. -/
def linkValidationPackageArgsJson (entry_type_name tag : String)
    (direction : LinkDirection) : Json :=
  .obj [(("entry_type"), .str entry_type_name),
        (("tag"), .str tag),
        (("direction"), .str (match direction with | .To => "to" | .From => "from"))]

/-- Modelled from the spec: the per-agent context as seen by the callback —
the DNA, WASM lookup, the sandboxed WASM runtime (`ribosome::run_dna`,
taking the DNA name, the bytecode, the call and its raw parameter bytes),
and the two `links_utils` helpers used by the `LinkAdd` branch. -/
structure Context where
  dna? : Option Dna
  get_wasm : String → Option DnaWasm
  run_dna : String → List Nat → ZomeFnCall → Option (List Nat) →
    Except HolochainError Json
  get_link_entries : Address → Address → String →
    Except HolochainError (Entry × Entry)
  find_link_definition_in_dna : EntryType → String → EntryType →
    Except String LinkDefinitionPath

/-- The common tail of `get_validation_package_definition`: reject a null
result, then deserialize it as a `ValidationPackageDefinition`. -/
def validationPackageResultCheck (result : Json) :
    Except HolochainError CallbackResult :=
  if result.is_null then
    .error (.SerializationError
      ("__hdk_get_validation_package_for_entry_type returned empty result"))
  else
    match ValidationPackageDefinition.try_from result with
    | .ok package => .ok (.ValidationPackageDefinition package)
    | .error _ => .error (.SerializationError
        ("validation_package result could not be deserialized as ValidationPackage"))

/-- Translation of `get_validation_package_definition`
(`core/src/nucleus/ribosome/callback/validation_package.rs`). The outer
`Option` is `none` exactly on the panics of the source (`.expect` on a
missing DNA, the assertion inside `get_zome_name_for_app_entry_type`, and
`.expect` on missing WASM in the `LinkAdd` branch); the second component
lists the WASM callback invocations (`ribosome::run_dna` calls) performed. -/
def get_validation_package_definition (ctx : Context) (entry : Entry) :
    Option (Except HolochainError CallbackResult × List ZomeFnCall) :=
  match ctx.dna? with
  | none => none
  | some dna =>
    match entry.entry_type with
    | .App app_entry_type =>
      match dna.get_zome_name_for_app_entry_type app_entry_type with
      | none => none
      | some none => some (.ok .NotImplemented, [])
      | some (some zome_name) =>
        match ctx.get_wasm zome_name with
        | none => some (.error (.ErrorGeneric ("no wasm found")), [])
        | some wasm =>
          let call : ZomeFnCall :=
            ⟨zome_name, ("no capability, since this is an entry validation call"),
             ("__hdk_get_validation_package_for_entry_type"), app_entry_type⟩
          match ctx.run_dna dna.name wasm.code call (some (strBytes app_entry_type)) with
          | .error e => some (.error e, [call])
          | .ok result => some (validationPackageResultCheck result, [call])
    | .LinkAdd =>
      match entry with
      | .LinkAdd base target tag =>
        match ctx.get_link_entries base target tag with
        | .error e => some (.error e, [])
        | .ok (base_entry, target_entry) =>
          match ctx.find_link_definition_in_dna base_entry.entry_type tag
              target_entry.entry_type with
          | .error _ => some (.error .NotImplemented, [])
          | .ok path =>
            match ctx.get_wasm path.zome_name with
            | none => none
            | some wasm =>
              let params := jsonToString
                (linkValidationPackageArgsJson path.entry_type_name path.tag
                  path.direction)
              let call : ZomeFnCall :=
                ⟨"", ("no capability, since this is an entry validation call"),
                 ("__hdk_get_validation_package_for_link"), params⟩
              match ctx.run_dna dna.name wasm.code call (some (strBytes params)) with
              | .error e => some (.error e, [call])
              | .ok result => some (validationPackageResultCheck result, [call])
      | _ => some (.error (.ValidationFailed ("Failed to extract LinkAdd")), [])
    | .Deletion =>
      some (validationPackageResultCheck
        (ValidationPackageDefinition.to_json .ChainFull), [])
    | _ => some (.error .NotImplemented, [])

/-! ## `invoke_update_entry` (`core/src/nucleus/ribosome/api/update_entry.rs`)

The function chains four futures with `and_then` and blocks on the result:
build the validation package, validate, commit, update. The callees live in
`nucleus::actions` and `agent::actions` (not among the provided sources) and
are modelled as oracles; the second component of the result records which of
the two mutating actions (`commit_entry`, `update_entry`) were invoked, in
order. -/

/-- Modelled from the spec: the ribosome error codes of the return
channel. -/
inductive RibosomeErrorCode where
  | ArgumentDeserializationFailed
  | OutOfMemory
  | ReceivedWrongActionResult
  | CallbackFailed
  | RecursiveCallForbidden
  | ResponseSerializationFailed
  | NotAnAllocation
  | ZeroSizedAllocation
  | UnknownEntryType
deriving DecidableEq

/-- Modelled from the spec: a validation package — the context bundle the
author ships to validators (headers and entries carried as their serialized
forms). -/
structure ValidationPackage where
  chain_header : Option String
  source_chain_entries : Option (List String)
  source_chain_headers : Option (List String)
  custom : Option String
deriving DecidableEq

/-- Modelled from the spec: the lifecycle tag of a commit. -/
inductive EntryLifecycle where
  | Chain
  | Dht
  | Meta
deriving DecidableEq

/-- Modelled from the spec: the action tag of a commit. -/
inductive EntryAction where
  | Commit
  | Modify
  | Delete
deriving DecidableEq

/-- Modelled from the spec: the data handed to entry validation. -/
structure ValidationData where
  package : ValidationPackage
  sources : List String
  lifecycle : EntryLifecycle
  action : EntryAction
deriving DecidableEq

/-- Model of `UpdateEntryArgs`: the deserialized argument of the `UpdateEntry` zome
API function — the new entry and the address of the entry to update
(`Entry::from(SerializedEntry)` is applied to the entry). -/
structure UpdateEntryArgs where
  new_entry : Entry
  address : Address
deriving DecidableEq

/-- Modelled from the spec: the actions `invoke_update_entry` chains —
`build_validation_package` and `validate_entry` from `nucleus::actions`,
`commit_entry` and `update_entry` from `agent::actions`. -/
structure AgentActions where
  build_validation_package : Entry → Except HolochainError ValidationPackage
  validate_entry : EntryType → Entry → ValidationData → Except HolochainError Unit
  commit_entry : Entry → Except HolochainError Address
  update_entry : Address → Address → Except HolochainError Address

/-- A mutating action performed by `invoke_update_entry`: a chain/DHT commit
of the new entry, or the CRUD update of the old address to the new one. -/
inductive UpdateEffect where
  | Commit (entry : Entry)
  | Update (old_address : Address) (new_address : Address)
deriving DecidableEq

/-- The value `invoke_update_entry` hands back to the WASM caller: a
ribosome error code on argument deserialization failure, otherwise the
stored task result (`runtime.store_result(task_result)`). -/
inductive ZomeApiInvokeResult where
  | error_code (code : RibosomeErrorCode)
  | stored (task_result : Except HolochainError Address)

/-- Translation of `invoke_update_entry`. Here `args?` is the outcome of deserializing the
runtime arguments into `UpdateEntryArgs`; the effect list records the
mutating actions invoked, in order. -/
def invoke_update_entry (actions : AgentActions)
    (args? : Except String UpdateEntryArgs) :
    ZomeApiInvokeResult × List UpdateEffect :=
  match args? with
  | .error _ => (.error_code .ArgumentDeserializationFailed, [])
  | .ok entry_args =>
    let entry := entry_args.new_entry
    match actions.build_validation_package entry with
    | .error e => (.stored (.error e), [])
    | .ok validation_package =>
      let validation_data : ValidationData :=
        ⟨validation_package, [("<insert your agent key here>")], .Chain, .Commit⟩
      match actions.validate_entry entry.entry_type entry validation_data with
      | .error e => (.stored (.error e), [])
      | .ok _ =>
        match actions.commit_entry entry with
        | .error e => (.stored (.error e), [.Commit entry])
        | .ok new_address =>
          match actions.update_entry entry_args.address new_address with
          | .error e =>
              (.stored (.error e),
               [.Commit entry, .Update entry_args.address new_address])
          | .ok addr =>
              (.stored (.ok addr),
               [.Commit entry, .Update entry_args.address new_address])

/-! ## Concrete fixtures used by witnesses and counterexamples -/

/-- A concrete entry-type definition. -/
def testEntryTypeDef : EntryTypeDef := ⟨"", .Public, [], []⟩

/-- A concrete capability. -/
def testCapability : Capability := ⟨.Public, []⟩

/-- A concrete zome registering the app entry type `test type`. -/
def testZome : Zome :=
  ⟨"", ⟨.ThrowErrors⟩, [(.App ("test type"), testEntryTypeDef)],
   [(("test capability"), testCapability)], ⟨[]⟩⟩

/-- A concrete DNA with the single zome `test zome`. -/
def testDna : Dna :=
  ⟨("test"), "", "", ("00000000-0000-0000-0000-000000000000"), ("2.0"),
   .obj [], [(("test zome"), testZome)]⟩

/-! ## C1 — `Dna::multihash` -/

/-- C1 as stated is false: `multihash::encode` wraps the digest in multihash
framing, so at the concrete `testDna` the returned value is not the bare
32-byte SHA-256 digest of the canonical JSON. -/
theorem multihash_not_bare_sha256_digest :
    Dna.multihash testDna ≠
      Except.ok (sha256 (strBytes (Dna.json_string testDna))) := by
  intro hcontra
  have hbytes : multihashEncode .SHA2256 (strBytes (Dna.json_string testDna)) =
      sha256 (strBytes (Dna.json_string testDna)) := by
    simpa [Dna.multihash] using hcontra
  have hlen := congrArg List.length hbytes
  rw [multihashEncode_length, sha256_length] at hlen
  exact absurd hlen (by decide)

/-- C1 (amended): `Dna::multihash` returns the SHA2-256 *multihash* of the
DNA's canonical JSON serialization — a 34-byte value whose first two bytes
are the multihash framing `0x12` (SHA2-256) and `0x20` (digest length 32)
and whose remaining 32 bytes are the SHA-256 digest. -/
theorem multihash_is_framed_sha256 (dna : Dna) :
    Dna.multihash dna =
      .ok (18 :: 32 :: sha256 (strBytes (Dna.json_string dna))) ∧
    (18 :: 32 :: sha256 (strBytes (Dna.json_string dna))).length = 34 ∧
    (18 :: 32 :: sha256 (strBytes (Dna.json_string dna))).drop 2 =
      sha256 (strBytes (Dna.json_string dna)) :=
  ⟨rfl, by simp [sha256_length], rfl⟩

/-! ## C9 — `impl PartialEq for Dna` -/

/-- C9: two DNA values are `==` exactly when their canonical JSON
serializations (`JsonString::from`) are equal. -/
theorem dna_partial_eq_iff_canonical_json_eq (dna other : Dna) :
    Dna.partial_eq dna other = true ↔
      Dna.json_string dna = Dna.json_string other := by
  simp [Dna.partial_eq]

/-! ## C8 — `Dna::get_capability_with_zome_name` -/

/-- C8: `get_capability_with_zome_name` yields `ZomeNotFound` exactly when
the zome is missing, `CapabilityNotFound` exactly when the zome exists but
the capability is missing in it, and otherwise the capability stored under
the capability name in that zome. -/
theorem get_capability_with_zome_name_cases (dna : Dna)
    (zome_name cap_name : String) :
    ((∃ msg, dna.get_capability_with_zome_name zome_name cap_name =
        .error (.ZomeNotFound msg)) ↔ dna.get_zome zome_name = none) ∧
    ((∃ msg, dna.get_capability_with_zome_name zome_name cap_name =
        .error (.CapabilityNotFound msg)) ↔
      ∃ zome, dna.get_zome zome_name = some zome ∧
        dna.get_capability zome cap_name = none) ∧
    (∀ zome cap, dna.get_zome zome_name = some zome →
      dna.get_capability zome cap_name = some cap →
      dna.get_capability_with_zome_name zome_name cap_name = .ok cap) := by
  unfold Dna.get_capability_with_zome_name
  rcases hz : dna.get_zome zome_name with _ | zome
  · simp
  · rcases hc : dna.get_capability zome cap_name with _ | cap
    · simp only [hc]
      refine ⟨by simp, by simp [hc], ?_⟩
      simp only [Option.some_inj]
      rintro zome2 cap2 rfl hc2
      rw [hc] at hc2
      exact absurd hc2 (by simp)
    · simp only [hc]
      refine ⟨by simp, by simp [hc], ?_⟩
      simp only [Option.some_inj]
      rintro zome2 cap2 rfl hc2
      rw [hc] at hc2
      rw [Option.some_inj] at hc2
      rw [hc2]

/-- C8 witness: the zome and capability of `testDna` are found. -/
theorem get_capability_with_zome_name_cases_witness :
    Dna.get_capability_with_zome_name testDna ("test zome") ("test capability") =
      .ok testCapability :=
  (get_capability_with_zome_name_cases testDna ("test zome")
    ("test capability")).2.2 testZome testCapability rfl rfl

/-! ## C10 — the `assert!` preconditions of the app-entry-type lookups -/

/-- C10: with an invalid app entry type name, both lookups fail their
`assert!` and panic (outer `none`); with a valid name the assertion branch
is unreachable and both functions return their browse result for every
DNA. -/
theorem app_entry_type_lookup_assert (dna : Dna) (type_name : String) :
    (EntryType.has_valid_app_name type_name = false →
      dna.get_zome_name_for_app_entry_type type_name = none ∧
      dna.get_entry_type_def type_name = none) ∧
    (EntryType.has_valid_app_name type_name = true →
      dna.get_zome_name_for_app_entry_type type_name =
        some (zomeNameBrowse type_name dna.zomes) ∧
      dna.get_entry_type_def type_name =
        some (entryTypeDefBrowse type_name dna.zomes)) := by
  constructor
  · intro hinvalid
    simp [Dna.get_zome_name_for_app_entry_type, Dna.get_entry_type_def, hinvalid]
  · intro hvalid
    simp [Dna.get_zome_name_for_app_entry_type, Dna.get_entry_type_def, hvalid]

/-- C10 witness: `Deletion` is not a valid app entry type name and panics;
`test type` is valid and both lookups return. -/
theorem app_entry_type_lookup_assert_witness :
    (testDna.get_zome_name_for_app_entry_type ("Deletion") = none ∧
     testDna.get_entry_type_def ("Deletion") = none) ∧
    (testDna.get_zome_name_for_app_entry_type ("test type") =
       some (zomeNameBrowse ("test type") testDna.zomes) ∧
     testDna.get_entry_type_def ("test type") =
       some (entryTypeDefBrowse ("test type") testDna.zomes)) :=
  ⟨(app_entry_type_lookup_assert testDna ("Deletion")).1 (by decide),
   (app_entry_type_lookup_assert testDna ("test type")).2 (by decide)⟩

/-! ## C6 — `Dna::get_zome_name_for_app_entry_type` -/

theorem any_key_beq_iff_mem (t : EntryType) (ets : List (EntryType × EntryTypeDef)) :
    ets.any (fun p => p.1 == t) = true ↔ t ∈ ets.map Prod.fst := by
  simp [List.any_eq_true, List.mem_map]

theorem zomeNameBrowse_eq_find (type_name : String) (zomes : List (String × Zome)) :
    zomeNameBrowse type_name zomes =
      (zomes.find? (fun p =>
        decide (EntryType.App type_name ∈ p.2.entry_types.map Prod.fst))).map
        Prod.fst := by
  induction zomes with
  | nil => rfl
  | cons hd tl ih =>
    rcases hd with ⟨zname, zome⟩
    by_cases hmem : EntryType.App type_name ∈ zome.entry_types.map Prod.fst
    · have hany := (any_key_beq_iff_mem (EntryType.App type_name) zome.entry_types).mpr hmem
      rw [zomeNameBrowse, if_pos hany, List.find?_cons_of_pos _ (by simpa using hmem)]
      rfl
    · have hany : ¬ zome.entry_types.any (fun p => p.1 == EntryType.App type_name) = true :=
        fun hc => hmem ((any_key_beq_iff_mem (EntryType.App type_name) zome.entry_types).mp hc)
      rw [zomeNameBrowse, if_neg hany, List.find?_cons_of_neg _ (by simpa using hmem), ih]

/-- C6: with a valid app entry type name, `get_zome_name_for_app_entry_type`
returns the name of the first zome, in the order of the DNA's zomes mapping,
whose `entry_types` contains the app entry type — and `none` (inner) when no
zome contains it, since `find?` is then `none`. -/
theorem get_zome_name_first_matching_zome (dna : Dna) (type_name : String)
    (hvalid : EntryType.has_valid_app_name type_name = true) :
    dna.get_zome_name_for_app_entry_type type_name =
      some ((dna.zomes.find? (fun p =>
        decide (EntryType.App type_name ∈ p.2.entry_types.map Prod.fst))).map
          Prod.fst) := by
  rw [Dna.get_zome_name_for_app_entry_type, if_pos hvalid, zomeNameBrowse_eq_find]

/-- C6 witness: on `testDna`, the lookup of `test type` returns the first
(only) zome name, and the lookup of an unregistered type returns `none`. -/
theorem get_zome_name_first_matching_zome_witness :
    testDna.get_zome_name_for_app_entry_type ("test type") =
      some ((testDna.zomes.find? (fun p =>
        decide (EntryType.App ("test type") ∈ p.2.entry_types.map Prod.fst))).map
          Prod.fst) :=
  get_zome_name_first_matching_zome testDna ("test type") (by decide)

/-! ## C7 — `Dna::get_entry_type_def` performs the same traversal -/

theorem zomeNameBrowse_mem (type_name zname : String)
    (zomes : List (String × Zome))
    (hz : zomeNameBrowse type_name zomes = some zname) :
    zname ∈ zomes.map Prod.fst := by
  induction zomes with
  | nil => simp [zomeNameBrowse] at hz
  | cons hd tl ih =>
    rcases hd with ⟨n0, z0⟩
    by_cases hany : z0.entry_types.any (fun p => p.1 == EntryType.App type_name) = true
    · rw [zomeNameBrowse, if_pos hany] at hz
      injection hz with hz
      simp [hz]
    · rw [zomeNameBrowse, if_neg hany] at hz
      exact List.mem_cons_of_mem _ (ih hz)

theorem browse_none_iff (type_name : String) (zomes : List (String × Zome)) :
    zomeNameBrowse type_name zomes = none ↔
      entryTypeDefBrowse type_name zomes = none := by
  induction zomes with
  | nil => simp [zomeNameBrowse, entryTypeDefBrowse]
  | cons hd tl ih =>
    rcases hd with ⟨n0, z0⟩
    by_cases hany : z0.entry_types.any (fun p => p.1 == EntryType.App type_name) = true
    · obtain ⟨x, hx⟩ := Option.isSome_iff_exists.mp
        (List.find?_isSome.mpr (List.any_eq_true.mp hany))
      rw [zomeNameBrowse, if_pos hany, entryTypeDefBrowse, hx]
      simp
    · have hfind : z0.entry_types.find? (fun p => p.1 == EntryType.App type_name) = none := by
        rw [List.find?_eq_none]
        intro x hx hpx
        exact hany (List.any_eq_true.mpr ⟨x, hx, hpx⟩)
      rw [zomeNameBrowse, if_neg hany, entryTypeDefBrowse, hfind]
      exact ih

theorem browse_some_entry_def (type_name : String) (zomes : List (String × Zome))
    (hnd : (zomes.map Prod.fst).Nodup) (zname : String)
    (hz : zomeNameBrowse type_name zomes = some zname) :
    ∃ zome, (zomes.find? (fun p => p.1 == zname)).map (fun p => p.2) = some zome ∧
      entryTypeDefBrowse type_name zomes =
        (zome.entry_types.find? (fun p => p.1 == EntryType.App type_name)).map
          (fun p => p.2) := by
  induction zomes with
  | nil => simp [zomeNameBrowse] at hz
  | cons hd tl ih =>
    rcases hd with ⟨n0, z0⟩
    rw [List.map_cons, List.nodup_cons] at hnd
    by_cases hany : z0.entry_types.any (fun p => p.1 == EntryType.App type_name) = true
    · rw [zomeNameBrowse, if_pos hany] at hz
      injection hz with hz
      subst hz
      obtain ⟨x, hx⟩ := Option.isSome_iff_exists.mp
        (List.find?_isSome.mpr (List.any_eq_true.mp hany))
      refine ⟨z0, ?_, ?_⟩
      · rw [List.find?_cons_of_pos _ (by simp)]
        rfl
      · rw [entryTypeDefBrowse, hx]
        simp [hx]
    · rw [zomeNameBrowse, if_neg hany] at hz
      have hmem := zomeNameBrowse_mem type_name zname tl hz
      obtain ⟨zome, hfind, hdef⟩ := ih hnd.2 hz
      have hne : ¬ n0 = zname := fun he => hnd.1 (he ▸ hmem)
      have hfnone : z0.entry_types.find? (fun p => p.1 == EntryType.App type_name) = none := by
        rw [List.find?_eq_none]
        intro x hx hpx
        exact hany (List.any_eq_true.mpr ⟨x, hx, hpx⟩)
      refine ⟨zome, ?_, ?_⟩
      · rw [List.find?_cons_of_neg _ (by simpa using hne)]
        exact hfind
      · rw [entryTypeDefBrowse, hfnone]
        exact hdef

/-- C7: with a valid app entry type name and the (`BTreeMap`-guaranteed)
distinctness of zome names, `get_entry_type_def` returns `some` exactly when
`get_zome_name_for_app_entry_type` does, and the definition returned is the
one registered under the entry type in the zome whose name is returned. -/
theorem get_entry_type_def_same_traversal (dna : Dna) (type_name : String)
    (hvalid : EntryType.has_valid_app_name type_name = true)
    (hnd : (dna.zomes.map Prod.fst).Nodup) :
    ∃ name_opt def_opt,
      dna.get_zome_name_for_app_entry_type type_name = some name_opt ∧
      dna.get_entry_type_def type_name = some def_opt ∧
      (def_opt.isSome ↔ name_opt.isSome) ∧
      (∀ zname, name_opt = some zname →
        ∃ zome, dna.get_zome zname = some zome ∧
          def_opt = (zome.entry_types.find? (fun p =>
            p.1 == EntryType.App type_name)).map (fun p => p.2)) := by
  refine ⟨zomeNameBrowse type_name dna.zomes, entryTypeDefBrowse type_name dna.zomes,
    by rw [Dna.get_zome_name_for_app_entry_type, if_pos hvalid],
    by rw [Dna.get_entry_type_def, if_pos hvalid], ?_, ?_⟩
  · rw [Option.isSome_iff_ne_none, Option.isSome_iff_ne_none]
    exact not_congr (browse_none_iff type_name dna.zomes).symm
  · intro zname hz
    obtain ⟨zome, hfind, hdef⟩ := browse_some_entry_def type_name dna.zomes hnd zname hz
    exact ⟨zome, by rw [Dna.get_zome]; exact hfind, hdef⟩

/-- C7 witness: the traversal correspondence at `testDna` and `test type`. -/
theorem get_entry_type_def_same_traversal_witness :
    ∃ name_opt def_opt,
      testDna.get_zome_name_for_app_entry_type ("test type") = some name_opt ∧
      testDna.get_entry_type_def ("test type") = some def_opt ∧
      (def_opt.isSome ↔ name_opt.isSome) ∧
      (∀ zname, name_opt = some zname →
        ∃ zome, testDna.get_zome zname = some zome ∧
          def_opt = (zome.entry_types.find? (fun p =>
            p.1 == EntryType.App ("test type"))).map (fun p => p.2)) :=
  get_entry_type_def_same_traversal testDna ("test type") (by decide) (by decide)

/-! ## C3 — `Deletion` entries get the `ChainFull` package definition -/

/-- C3: for every deletion entry, `get_validation_package_definition`
returns the `ChainFull` validation package definition and performs no WASM
callback invocation (the recorded call list is empty). -/
theorem deletion_package_definition_chain_full (ctx : Context) (dna : Dna)
    (deletion : DeletionEntry) (hdna : ctx.dna? = some dna) :
    get_validation_package_definition ctx (.Deletion deletion) =
      some (.ok (.ValidationPackageDefinition .ChainFull), []) := by
  unfold get_validation_package_definition
  rw [hdna]
  rfl

/-- A concrete callback context holding `testDna`, with inert oracles. -/
def testContext : Context :=
  ⟨some testDna, fun _ => none, fun _ _ _ _ => .error .NotImplemented,
   fun _ _ _ => .error .NotImplemented, fun _ _ _ => .error ("no link definition")⟩

/-- C3 witness: a concrete deletion entry against `testContext`. -/
theorem deletion_package_definition_chain_full_witness :
    get_validation_package_definition testContext
        (.Deletion ⟨("some address")⟩) =
      some (.ok (.ValidationPackageDefinition .ChainFull), []) :=
  deletion_package_definition_chain_full testContext testDna ⟨("some address")⟩ rfl

/-! ## C4 — unmapped entry types yield `NotImplemented` -/

/-- The unmapped entry types of the claim: an app entry whose (valid) type
name is registered in no zome's `entry_types`, or a system entry other than
`Deletion` and `LinkAdd`. -/
def unmappedEntry (dna : Dna) : Entry → Prop
  | .App type_name _ =>
      EntryType.has_valid_app_name type_name = true ∧
      ∀ p ∈ dna.zomes, EntryType.App type_name ∉ p.2.entry_types.map Prod.fst
  | .LinkAdd .. => False
  | .Deletion _ => False
  | _ => True

/-- C4: for every unmapped entry, `get_validation_package_definition` yields
`NotImplemented` — `Ok(CallbackResult::NotImplemented)` for an unregistered
app entry type, `Err(HolochainError::NotImplemented)` for the other system
entries — with no WASM callback invoked, and in particular never a
validation package definition. -/
theorem unmapped_entry_not_implemented (ctx : Context) (dna : Dna) (entry : Entry)
    (hdna : ctx.dna? = some dna) (hunmapped : unmappedEntry dna entry) :
    get_validation_package_definition ctx entry =
      some (.ok .NotImplemented, []) ∨
    get_validation_package_definition ctx entry =
      some (.error .NotImplemented, []) := by
  cases entry with
  | App type_name value =>
    obtain ⟨hvalid, hnone⟩ := hunmapped
    left
    have hfind : List.find? (fun p =>
        decide (EntryType.App type_name ∈ List.map Prod.fst p.2.entry_types))
          dna.zomes = none := by
      rw [List.find?_eq_none]
      intro p hp
      simpa using hnone p hp
    have hz : dna.get_zome_name_for_app_entry_type type_name = some none := by
      rw [Dna.get_zome_name_for_app_entry_type, if_pos hvalid,
        zomeNameBrowse_eq_find, hfind]
      rfl
    unfold get_validation_package_definition
    rw [hdna]
    simp only [Entry.entry_type, hz]
  | LinkAdd base target tag => exact absurd hunmapped (by simp [unmappedEntry])
  | LinkRemove link_add_address =>
    right
    unfold get_validation_package_definition
    rw [hdna]
    rfl
  | Deletion deletion => exact absurd hunmapped (by simp [unmappedEntry])
  | AgentId key =>
    right
    unfold get_validation_package_definition
    rw [hdna]
    rfl
  | Dna dna_hash =>
    right
    unfold get_validation_package_definition
    rw [hdna]
    rfl

/-- C4 witness: an `AgentId` system entry and an unregistered app entry
against `testContext`. -/
theorem unmapped_entry_not_implemented_witness :
    (get_validation_package_definition testContext (.AgentId ("key")) =
        some (.ok .NotImplemented, []) ∨
     get_validation_package_definition testContext (.AgentId ("key")) =
        some (.error .NotImplemented, [])) ∧
    (get_validation_package_definition testContext (.App ("unregistered") ("x")) =
        some (.ok .NotImplemented, []) ∨
     get_validation_package_definition testContext (.App ("unregistered") ("x")) =
        some (.error .NotImplemented, [])) :=
  ⟨unmapped_entry_not_implemented testContext testDna (.AgentId ("key")) rfl
      (by simp [unmappedEntry]),
   unmapped_entry_not_implemented testContext testDna (.App ("unregistered") ("x")) rfl
      (by simp only [unmappedEntry]
          decide)⟩

/-! ## C2 — validation gates commit and update in `invoke_update_entry` -/

/-- The `ValidationData` `invoke_update_entry` builds around a package. -/
def updateValidationData (pkg : ValidationPackage) : ValidationData :=
  ⟨pkg, [("<insert your agent key here>")], .Chain, .Commit⟩

/-- C2: if building the validation package or validating the new entry
errors, neither `commit_entry` nor `update_entry` is invoked (the effect
list is empty) and the error is the stored result; when validation
succeeds, `commit_entry` runs and then — only if the commit succeeded —
`update_entry` with the old address and the new address, in that order,
with the outcome of the chain as the stored result. -/
theorem invoke_update_entry_validation_gates_commit (actions : AgentActions)
    (args : UpdateEntryArgs) :
    (∀ e, actions.build_validation_package args.new_entry = .error e →
      invoke_update_entry actions (.ok args) = (.stored (.error e), [])) ∧
    (∀ pkg e, actions.build_validation_package args.new_entry = .ok pkg →
      actions.validate_entry args.new_entry.entry_type args.new_entry
          (updateValidationData pkg) = .error e →
      invoke_update_entry actions (.ok args) = (.stored (.error e), [])) ∧
    (∀ pkg, actions.build_validation_package args.new_entry = .ok pkg →
      actions.validate_entry args.new_entry.entry_type args.new_entry
          (updateValidationData pkg) = .ok () →
      (∀ e, actions.commit_entry args.new_entry = .error e →
        invoke_update_entry actions (.ok args) =
          (.stored (.error e), [.Commit args.new_entry])) ∧
      (∀ new_address, actions.commit_entry args.new_entry = .ok new_address →
        invoke_update_entry actions (.ok args) =
          (.stored (actions.update_entry args.address new_address),
           [.Commit args.new_entry, .Update args.address new_address]))) := by
  refine ⟨?_, ?_, ?_⟩
  · intro e hbuild
    unfold invoke_update_entry
    simp only [hbuild]
  · intro pkg e hbuild hvalidate
    rw [show updateValidationData pkg =
      ⟨pkg, [("<insert your agent key here>")], .Chain, .Commit⟩ from rfl] at hvalidate
    unfold invoke_update_entry
    simp only [hbuild, hvalidate]
  · intro pkg hbuild hvalidate
    rw [show updateValidationData pkg =
      ⟨pkg, [("<insert your agent key here>")], .Chain, .Commit⟩ from rfl] at hvalidate
    constructor
    · intro e hcommit
      unfold invoke_update_entry
      simp only [hbuild, hvalidate, hcommit]
    · intro new_address hcommit
      unfold invoke_update_entry
      simp only [hbuild, hvalidate, hcommit]
      rcases hupdate : actions.update_entry args.address new_address with e | addr
      · simp only [hupdate]
      · simp only [hupdate]

/-- A concrete validation package. -/
def testValidationPackage : ValidationPackage := ⟨none, none, none, none⟩

/-- Concrete agent actions that all succeed. -/
def testAgentActions : AgentActions :=
  ⟨fun _ => .ok testValidationPackage,
   fun _ _ _ => .ok (),
   fun _ => .ok ("new address"),
   fun _ _ => .ok ("updated")⟩

/-- The concrete update arguments of the witness. -/
def testUpdateArgs : UpdateEntryArgs := ⟨.App ("test type") ("payload"), ("old address")⟩

/-- C2 witness: on all-succeeding actions, the commit and then the update
run, in that order, and the update outcome is stored. -/
theorem invoke_update_entry_validation_gates_commit_witness :
    invoke_update_entry testAgentActions (.ok testUpdateArgs) =
      (.stored (testAgentActions.update_entry ("old address") ("new address")),
       [.Commit testUpdateArgs.new_entry,
        .Update ("old address") ("new address")]) :=
  ((invoke_update_entry_validation_gates_commit testAgentActions testUpdateArgs).2.2
    testValidationPackage rfl rfl).2 ("new address") rfl

/-! ## C5 — serde parsing defaults of the `Dna` struct -/

/-- The DNA obtained by parsing the empty JSON object with a given fresh
uuid: every field takes its serde field default. -/
def emptyObjectDna (fresh_uuid : String) : Dna :=
  ⟨"", "", "", fresh_uuid, "", .obj [], []⟩

/-- C5 as stated is false: parsing a DNA JSON object with an absent
`dna_spec_version` yields the serde field default `""` (plain
`#[serde(default)]` on a `String`), not `"2.0"` — `"2.0"` is only the
struct-level `Default`/`Dna::new` value. -/
theorem parse_dna_spec_version_not_two_point_zero :
    ¬ ∃ dna, parseDna ("00000000-0000-0000-0000-000000000000") (.obj []) =
        .ok dna ∧ dna.dna_spec_version = "2.0" := by
  rintro ⟨dna, hparse, hversion⟩
  have heval : parseDna ("00000000-0000-0000-0000-000000000000") (.obj []) =
      .ok (emptyObjectDna ("00000000-0000-0000-0000-000000000000")) := rfl
  rw [heval] at hparse
  rw [Except.ok.injEq] at hparse
  rw [← hparse] at hversion
  exact absurd hversion (by decide)

/-- C5 (amended): parsing a DNA JSON object applies the serde field
defaults to absent fields — an absent `uuid` is replaced by the freshly
generated (non-empty) v4 UUID, while `name`, `description`, `version` and
`dna_spec_version` default to the empty string (in particular
`dna_spec_version` to `""`, not `"2.0"`), `properties` to the empty object
and `zomes` to the empty map. -/
theorem parse_dna_absent_field_defaults (fresh_uuid : String)
    (hU : fresh_uuid ≠ "") (fields : List (String × Json)) (dna : Dna)
    (hp : parseDna fresh_uuid (.obj fields) = .ok dna) :
    (jsonLookup fields ("name") = none → dna.name = "") ∧
    (jsonLookup fields ("description") = none → dna.description = "") ∧
    (jsonLookup fields ("version") = none → dna.version = "") ∧
    (jsonLookup fields ("uuid") = none → dna.uuid = fresh_uuid ∧ dna.uuid ≠ "") ∧
    (jsonLookup fields ("dna_spec_version") = none → dna.dna_spec_version = "") ∧
    (jsonLookup fields ("properties") = none → dna.properties = .obj []) ∧
    (jsonLookup fields ("zomes") = none → dna.zomes = []) := by
  simp only [parseDna] at hp
  cases h1 : parseField fields ("name") parseJsonString ("") with
  | error e => rw [h1] at hp; exact absurd hp (by simp)
  | ok name =>
  rw [h1] at hp
  cases h2 : parseField fields ("description") parseJsonString ("") with
  | error e => rw [h2] at hp; exact absurd hp (by simp)
  | ok description =>
  rw [h2] at hp
  cases h3 : parseField fields ("version") parseJsonString ("") with
  | error e => rw [h3] at hp; exact absurd hp (by simp)
  | ok version =>
  rw [h3] at hp
  cases h4 : parseField fields ("uuid") parseJsonString fresh_uuid with
  | error e => rw [h4] at hp; exact absurd hp (by simp)
  | ok uuid =>
  rw [h4] at hp
  cases h5 : parseField fields ("dna_spec_version") parseJsonString ("") with
  | error e => rw [h5] at hp; exact absurd hp (by simp)
  | ok dna_spec_version =>
  rw [h5] at hp
  cases h6 : parseField fields ("properties") (fun j => .ok j) (.obj []) with
  | error e => rw [h6] at hp; exact absurd hp (by simp)
  | ok properties =>
  rw [h6] at hp
  cases h7 : parseField fields ("zomes") (parseMap compare id parseZome) [] with
  | error e => rw [h7] at hp; exact absurd hp (by simp)
  | ok zomes =>
  rw [h7] at hp
  rw [Except.ok.injEq] at hp
  subst hp
  refine ⟨?_, ?_, ?_, ?_, ?_, ?_, ?_⟩
  · intro habs
    simp only [parseField, habs] at h1
    exact (Except.ok.inj h1).symm
  · intro habs
    simp only [parseField, habs] at h2
    exact (Except.ok.inj h2).symm
  · intro habs
    simp only [parseField, habs] at h3
    exact (Except.ok.inj h3).symm
  · intro habs
    simp only [parseField, habs] at h4
    have hu := (Except.ok.inj h4).symm
    exact ⟨hu, fun hcontra => hU (hu.symm.trans hcontra)⟩
  · intro habs
    simp only [parseField, habs] at h5
    exact (Except.ok.inj h5).symm
  · intro habs
    simp only [parseField, habs] at h6
    exact (Except.ok.inj h6).symm
  · intro habs
    simp only [parseField, habs] at h7
    exact (Except.ok.inj h7).symm

/-- C5 witness: parsing the empty JSON object with a concrete fresh uuid. -/
theorem parse_dna_absent_field_defaults_witness :
    (jsonLookup [] ("name") = none →
      (emptyObjectDna ("00000000-0000-0000-0000-000000000000")).name = "") ∧
    (jsonLookup [] ("description") = none →
      (emptyObjectDna ("00000000-0000-0000-0000-000000000000")).description = "") ∧
    (jsonLookup [] ("version") = none →
      (emptyObjectDna ("00000000-0000-0000-0000-000000000000")).version = "") ∧
    (jsonLookup [] ("uuid") = none →
      (emptyObjectDna ("00000000-0000-0000-0000-000000000000")).uuid =
        ("00000000-0000-0000-0000-000000000000") ∧
      (emptyObjectDna ("00000000-0000-0000-0000-000000000000")).uuid ≠ "") ∧
    (jsonLookup [] ("dna_spec_version") = none →
      (emptyObjectDna ("00000000-0000-0000-0000-000000000000")).dna_spec_version = "") ∧
    (jsonLookup [] ("properties") = none →
      (emptyObjectDna ("00000000-0000-0000-0000-000000000000")).properties = .obj []) ∧
    (jsonLookup [] ("zomes") = none →
      (emptyObjectDna ("00000000-0000-0000-0000-000000000000")).zomes = []) :=
  parse_dna_absent_field_defaults ("00000000-0000-0000-0000-000000000000")
    (by decide) [] (emptyObjectDna ("00000000-0000-0000-0000-000000000000")) rfl
